import Mathlib

/-!
Shallow embedding of the stake-and-steal smart contract
(`smart_contract/src/state_20260119132203.rs`, `lib_20260119134827.rs`,
`contract_20260119132308.rs`): the stake ledger, the raid state machine,
the commit-reveal steal protocol and the bounce handling, together with
theorems settling the specification claims about them.

Machine integers (`u8`, `u32`, `u64`, `u128`) are modelled as `Nat`;
the saturating operations of the source are modelled explicitly
(saturation at `2^128 - 1` for `u128`, truncated subtraction for `u64`),
and the guarded plain subtractions of the source coincide with `Nat.sub`.
Byte strings (`[u8; 32]`, `Vec<u8>`) are `List Nat` of values below 256.
The SHA-256 function of the `sha2` crate, an external dependency of the
contract, is implemented in full (FIPS 180-4) so that every hash the
contract computes is computed here as well.
-/

namespace StakeSteal

/-! ## SHA-256 (the `sha2` crate dependency) -/

/-- Truncation to 32 bits. -/
def w32 (x : Nat) : Nat := x % 4294967296

/-- Right rotation of a 32-bit word. -/
def rotr (n x : Nat) : Nat := w32 ((x >>> n) ||| (x <<< (32 - n)))

/-- Small sigma-0. -/
def ssig0 (x : Nat) : Nat := (rotr 7 x) ^^^ (rotr 18 x) ^^^ (x >>> 3)

/-- Small sigma-1. -/
def ssig1 (x : Nat) : Nat := (rotr 17 x) ^^^ (rotr 19 x) ^^^ (x >>> 10)

/-- Big sigma-0. -/
def bsig0 (x : Nat) : Nat := (rotr 2 x) ^^^ (rotr 13 x) ^^^ (rotr 22 x)

/-- Big sigma-1. -/
def bsig1 (x : Nat) : Nat := (rotr 6 x) ^^^ (rotr 11 x) ^^^ (rotr 25 x)

/-- The choice function. -/
def chf (x y z : Nat) : Nat := (x &&& y) ^^^ ((x ^^^ 4294967295) &&& z)

/-- The majority function. -/
def majf (x y z : Nat) : Nat := (x &&& y) ^^^ (x &&& z) ^^^ (y &&& z)

/-- The 64 round constants. -/
def shaK : List Nat :=
  [1116352408, 1899447441, 3049323471, 3921009573, 961987163, 1508970993,
   2453635748, 2870763221, 3624381080, 310598401, 607225278, 1426881987,
   1925078388, 2162078206, 2614888103, 3248222580, 3835390401, 4022224774,
   264347078, 604807628, 770255983, 1249150122, 1555081692, 1996064986,
   2554220882, 2821834349, 2952996808, 3210313671, 3336571891, 3584528711,
   113926993, 338241895, 666307205, 773529912, 1294757372, 1396182291,
   1695183700, 1986661051, 2177026350, 2456956037, 2730485921, 2820302411,
   3259730800, 3345764771, 3516065817, 3600352804, 4094571909, 275423344,
   430227734, 506948616, 659060556, 883997877, 958139571, 1322822218,
   1537002063, 1747873779, 1955562222, 2024104815, 2227730452, 2361852424,
   2428436474, 2756734187, 3204031479, 3329325298]

/-- The initial hash value. -/
def shaH0 : List Nat :=
  [1779033703, 3144134277, 1013904242, 2773480762,
   1359893119, 2600822924, 528734635, 1541459225]

/-- Big-endian byte expansion of a number, `n` bytes wide. -/
def beBytes (n x : Nat) : List Nat :=
  (List.range n).map (fun i => (x >>> (8 * (n - 1 - i))) % 256)

/-- SHA-256 padding: append `0x80`, zeros, and the 64-bit bit length. -/
def padMsg (m : List Nat) : List Nat :=
  m ++ (128 :: List.replicate ((119 - (m.length % 64)) % 64) 0)
    ++ beBytes 8 (8 * m.length)

/-- Bytes to big-endian 32-bit words. -/
def toWords : List Nat → List Nat
  | a :: b :: c :: d :: rest =>
      (((a * 256 + b) * 256 + c) * 256 + d) :: toWords rest
  | _ => []

/-- Lookup with default 0 in a reversed schedule. -/
def schedGet (ws : List Nat) (i : Nat) : Nat := ws.getD i 0

/-- Extend the message schedule `n` more words (the list is kept reversed,
most recent word first). -/
def schedExt : Nat → List Nat → List Nat
  | 0, ws => ws
  | n + 1, ws =>
      schedExt n
        (w32 (ssig1 (schedGet ws 1) + schedGet ws 6
              + ssig0 (schedGet ws 14) + schedGet ws 15) :: ws)

/-- The 64-word message schedule of one block. -/
def schedule (block : List Nat) : List Nat := (schedExt 48 block.reverse).reverse

/-- One compression round; the state is the 8 working variables. -/
def roundFn (st : List Nat) (wk : Nat × Nat) : List Nat :=
  match st with
  | [a, b, c, d, e, f, g, h] =>
      let t1 := w32 (h + bsig1 e + chf e f g + wk.1 + wk.2)
      let t2 := w32 (bsig0 a + majf a b c)
      [w32 (t1 + t2), a, b, c, w32 (d + t1), e, f, g]
  | other => other

/-- Compress one 16-word block into the running hash value. -/
def compressBlock (h : List Nat) (block : List Nat) : List Nat :=
  let out := ((schedule block).zip shaK).foldl roundFn h
  (h.zip out).map (fun p => w32 (p.1 + p.2))

/-- Split a word list into 16-word blocks. -/
def chunk16 : List Nat → List (List Nat)
  | w0 :: w1 :: w2 :: w3 :: w4 :: w5 :: w6 :: w7 ::
    w8 :: w9 :: w10 :: w11 :: w12 :: w13 :: w14 :: w15 :: rest =>
      [w0, w1, w2, w3, w4, w5, w6, w7,
       w8, w9, w10, w11, w12, w13, w14, w15] :: chunk16 rest
  | _ => []

/-- Words back to big-endian bytes. -/
def wordsToBytes : List Nat → List Nat
  | [] => []
  | w :: rest => beBytes 4 w ++ wordsToBytes rest

/-- SHA-256 of a byte string, as its 32 digest bytes. -/
def sha256 (m : List Nat) : List Nat :=
  wordsToBytes ((chunk16 (toWords (padMsg m))).foldl compressBlock shaH0)

/-! ## Machine-integer helpers -/

/-- The largest `u128` value. -/
def U128MAX : Nat := 340282366920938463463374607431768211455

/-- Saturation at `u128::MAX` (`saturating_mul` on `u128` is
`sat128 (a * b)`; `saturating_sub` on `Nat` is plain `Nat.sub`). -/
def sat128 (x : Nat) : Nat := min x U128MAX

/-- Little-endian byte expansion (`to_le_bytes`), `n` bytes wide. -/
def leBytes (n x : Nat) : List Nat :=
  (List.range n).map (fun i => (x >>> (8 * i)) % 256)

/-! ## Constants (`lib_20260119134827.rs`) -/

/-- Maximum plots per page. -/
def MAX_PLOTS_PER_PAGE : Nat := 5

/-- Maximum pages per player. -/
def MAX_PAGES_PER_PLAYER : Nat := 10

/-- Base yield rate in basis points per block. -/
def BASE_YIELD_RATE_BPS : Nat := 10

/-- Steal success rate (percentage). -/
def STEAL_SUCCESS_RATE : Nat := 30

/-- Steal percentage on success. -/
def STEAL_PERCENTAGE : Nat := 15

/-- Cooldown blocks after a raid. -/
def RAID_COOLDOWN_BLOCKS : Nat := 100

/-- Target lock duration in blocks. -/
def TARGET_LOCK_DURATION : Nat := 50

/-! ## Data model (`lib_20260119134827.rs`) -/

/-- `EncryptedData`: placeholder reversible transform around byte payloads. -/
structure EncryptedData where
  ciphertext : List Nat
  nonce : List Nat
  version : Nat
deriving DecidableEq, Repr

/-- `Default` for `EncryptedData` (derived in the source). -/
def EncryptedData.default : EncryptedData :=
  { ciphertext := [], nonce := List.replicate 12 0, version := 0 }

/-- `EncryptedData::new_mock`: XOR each plaintext byte with the owner key,
cycled (`byte ^= owner_key[i % owner_key.len()]`). -/
def EncryptedData.new_mock (plaintext owner_key : List Nat) : EncryptedData :=
  { ciphertext :=
      plaintext.enum.map (fun p => p.2 ^^^ owner_key.getD (p.1 % owner_key.length) 0),
    nonce := List.replicate 12 0,
    version := 0 }

/-- `LandPlot`: a single plot slot within a page. -/
structure LandPlot where
  id : Nat
  is_active : Bool
  encrypted_balance : EncryptedData
  balance : Nat
  deposit_block : Nat
  last_claim_block : Nat
  pending_yield : Nat
  times_stolen : Nat
  is_protected : Bool
  encrypted_metadata : List Nat
deriving DecidableEq, Repr

/-- `Default` for `LandPlot` (derived in the source). -/
def LandPlot.default : LandPlot :=
  { id := 0, is_active := false, encrypted_balance := EncryptedData.default,
    balance := 0, deposit_block := 0, last_claim_block := 0, pending_yield := 0,
    times_stolen := 0, is_protected := false, encrypted_metadata := [] }

/-- `LandPlot::calculate_yield`: zero for inactive or empty plots, otherwise
`balance.saturating_mul(blocks_elapsed).saturating_mul(yield_rate_bps) / 1_000_000`
with `blocks_elapsed = current_block.saturating_sub(last_claim_block)`. -/
def LandPlot.calculate_yield (p : LandPlot) (current_block yield_rate_bps : Nat) : Nat :=
  if p.is_active = false ∨ p.balance = 0 then 0
  else
    sat128 (sat128 (p.balance * (current_block - p.last_claim_block)) * yield_rate_bps)
      / 1000000

/-- `LandPlot::update_encrypted_balance`. -/
def LandPlot.update_encrypted_balance (p : LandPlot) (new_balance : Nat)
    (owner_key : List Nat) : LandPlot :=
  { p with balance := new_balance,
           encrypted_balance := EncryptedData.new_mock (leBytes 16 new_balance) owner_key }

/-- `Page`: a fixed group of plots. -/
structure Page where
  id : Nat
  is_unlocked : Bool
  plots : List LandPlot
  created_at : Nat
  encrypted_total : EncryptedData
deriving DecidableEq, Repr

/-- `Page::new`: `MAX_PLOTS_PER_PAGE` default (inactive, zero-balance) plots. -/
def Page.new (id current_block : Nat) : Page :=
  { id := id,
    is_unlocked := true,
    plots := (List.range MAX_PLOTS_PER_PAGE).map
      (fun i => { LandPlot.default with id := i, is_active := false }),
    created_at := current_block,
    encrypted_total := EncryptedData.default }

/-- `Page::total_balance`. -/
def Page.total_balance (p : Page) : Nat := (p.plots.map (fun q => q.balance)).sum

/-- `TargetInfo`: read-only snapshot of a potential raid target. -/
structure TargetInfo where
  chain_id : Nat
  activity_score : Nat
  active_pages : Nat
  last_active_block : Nat
  is_being_raided : Bool
deriving DecidableEq, Repr

/-- `RaidState`: the raid state machine (chain ids modelled as `Nat`,
32-byte hashes as `List Nat`). -/
inductive RaidState where
  | Idle
  | Searching (request_id : Nat)
  | Choosing (targets : List TargetInfo) (expires_at_block : Nat)
  | Locked (target_chain : Nat) (commitment : List Nat)
           (locked_at_block : Nat) (expires_at_block : Nat)
  | Executing (target_chain : Nat) (target_page : Nat) (target_plot : Nat)
              (started_at_block : Nat)
  | Cooldown (until_block : Nat)
deriving DecidableEq, Repr

/-- `PlayerStats` counters. -/
structure PlayerStats where
  total_deposited : Nat
  total_withdrawn : Nat
  total_yield_earned : Nat
  total_stolen : Nat
  total_lost_to_theft : Nat
  successful_steals : Nat
  failed_steals : Nat
  times_been_robbed : Nat
  current_streak : Int
  best_streak : Int
deriving DecidableEq, Repr

/-- `Default` for `PlayerStats` (derived in the source). -/
def PlayerStats.default : PlayerStats :=
  { total_deposited := 0, total_withdrawn := 0, total_yield_earned := 0,
    total_stolen := 0, total_lost_to_theft := 0, successful_steals := 0,
    failed_steals := 0, times_been_robbed := 0, current_streak := 0,
    best_streak := 0 }

/-- `AttackLog` entry. -/
structure AttackLog where
  timestamp : Nat
  other_chain : Nat
  was_attacker : Bool
  success : Bool
  amount : Nat
  page_id : Nat
  plot_id : Nat
deriving DecidableEq, Repr

/-- `GameConfig`: tunable economic parameters. -/
structure GameConfig where
  yield_rate_bps : Nat
  steal_success_rate : Nat
  steal_percentage : Nat
  raid_cooldown_blocks : Nat
  target_lock_duration : Nat
  min_deposit : Nat
  max_plots_per_page : Nat
  max_pages : Nat
deriving DecidableEq, Repr

/-- `Default` for `GameConfig`. -/
def GameConfig.default : GameConfig :=
  { yield_rate_bps := BASE_YIELD_RATE_BPS,
    steal_success_rate := STEAL_SUCCESS_RATE,
    steal_percentage := STEAL_PERCENTAGE,
    raid_cooldown_blocks := RAID_COOLDOWN_BLOCKS,
    target_lock_duration := TARGET_LOCK_DURATION,
    min_deposit := 100,
    max_plots_per_page := MAX_PLOTS_PER_PAGE,
    max_pages := MAX_PAGES_PER_PLAYER }

/-- `GameError`: the error taxonomy. The formatted strings carried by
`AlreadyRaiding`, `Unauthorized` and `Internal` are dropped from the model. -/
inductive GameError where
  | NotRegistered
  | AlreadyRegistered
  | InvalidPageId (id : Nat)
  | InvalidPlotId (id : Nat)
  | PageNotUnlocked
  | PlotNotActive
  | InsufficientBalance (got : Nat) (need : Nat)
  | AlreadyRaiding
  | NotRaiding
  | InvalidRaidState
  | TargetLockExpired
  | InvalidCommitment
  | CannotStealFromSelf
  | TargetProtected
  | InCooldown (until_block : Nat)
  | Unauthorized
  | Internal
deriving DecidableEq, Repr

/-- `StealCommitment`: hash commitment for the commit-reveal scheme. -/
structure StealCommitment where
  commitment_hash : List Nat
  committed_at_block : Nat
deriving DecidableEq, Repr

/-- `StealCommitment::new`: hash over `(target_page ‖ target_plot ‖ nonce)`. -/
def StealCommitment.new (target_page target_plot : Nat) (nonce : List Nat)
    (block : Nat) : StealCommitment :=
  { commitment_hash := sha256 ([target_page, target_plot] ++ nonce),
    committed_at_block := block }

/-- `StealCommitment::verify`: recompute and compare. -/
def StealCommitment.verify (c : StealCommitment)
    (target_page target_plot : Nat) (nonce : List Nat) : Bool :=
  sha256 ([target_page, target_plot] ++ nonce) == c.commitment_hash

/-- `PendingSteal`: attacker-side correlation record. -/
structure PendingSteal where
  target_chain : Nat
  target_page : Nat
  target_plot : Nat
  started_at_block : Nat
  attack_seed : List Nat
deriving DecidableEq, Repr

/-- Cross-chain `Message` variants (timestamps modelled as `Nat`). -/
inductive Message where
  | RegisterPlayer (player_chain : Nat) (encrypted_name : List Nat) (timestamp : Nat)
  | UnregisterPlayer (player_chain : Nat)
  | TargetList (requester : Nat) (targets : List TargetInfo) (request_id : Nat)
  | RequestTargets (requester : Nat) (count : Nat) (exclude_chains : List Nat)
                   (request_id : Nat)
  | StealAttempt (attacker_chain : Nat) (target_page : Nat) (target_plot : Nat)
                 (attack_seed : List Nat) (attack_timestamp : Nat)
  | StealOutcome (attacker_chain : Nat) (success : Bool) (amount_stolen : Nat)
                 (rng_proof : List Nat)
  | StolenFunds (from_chain : Nat) (amount : Nat) (original_page : Nat)
                (original_plot : Nat)
  | AttackNotification (attacker_chain : Nat) (success : Bool) (amount_lost : Nat)
                       (page_id : Nat) (plot_id : Nat)
  | StateSync (from_chain : Nat) (state_hash : List Nat)
deriving DecidableEq, Repr

/-- `PlayerState` (`state_20260119132203.rs`): the map views become
association lists keyed by `Nat`, the queue view a list. -/
structure PlayerState where
  is_registered : Bool
  encrypted_name : List Nat
  owner_key_hash : List Nat
  available_balance : Nat
  pages : List (Nat × Page)
  page_count : Nat
  raid_state : RaidState
  stats : PlayerStats
  attack_log : List AttackLog
  config : GameConfig
  is_registry : Bool
  registry_chain_id : Option Nat
  current_block : Nat
  request_counter : Nat
  pending_steals : List (Nat × PendingSteal)
  is_being_raided : Bool
  current_raider : Option Nat
deriving DecidableEq, Repr

/-- `MapView::insert`: replace the binding of `k`, or append it. -/
def mapInsert {α : Type} : List (Nat × α) → Nat → α → List (Nat × α)
  | [], k, v => [(k, v)]
  | (k', v') :: rest, k, v =>
      if k' = k then (k, v) :: rest else (k', v') :: mapInsert rest k v

/-- The queue trim loop `while count > 50 { pop_front }` in closed form. -/
def trimLog (l : List AttackLog) : List AttackLog := l.drop (l.length - 50)

/-! ## Operations (`state_20260119132203.rs`)

Each fallible `&mut self` method becomes a function returning the
`Except` outcome together with the (possibly already mutated) state,
because some error paths of the source do mutate state before
returning the error. -/

namespace PlayerState

/-- `PlayerState::initialize` (renamed `initPlayer` here). -/
def initPlayer (s : PlayerState) (is_registry : Bool)
    (registry_chain_id : Option Nat) (initial_balance : Nat) : PlayerState :=
  { s with is_registered := false, encrypted_name := [],
           owner_key_hash := List.replicate 32 0,
           available_balance := initial_balance, page_count := 0,
           raid_state := RaidState.Idle, stats := PlayerStats.default,
           config := GameConfig.default, is_registry := is_registry,
           registry_chain_id := registry_chain_id, current_block := 0,
           request_counter := 0, is_being_raided := false,
           current_raider := none }

/-- `PlayerState::create_page_internal`. -/
def create_page_internal (s : PlayerState) : Except GameError Nat × PlayerState :=
  if MAX_PAGES_PER_PLAYER ≤ s.page_count then (Except.error GameError.Internal, s)
  else
    (Except.ok s.page_count,
     { s with pages := mapInsert s.pages s.page_count (Page.new s.page_count s.current_block),
              page_count := s.page_count + 1 })

/-- `PlayerState::register`. -/
def register (s : PlayerState) (encrypted_name owner_key_hash : List Nat) :
    Except GameError Unit × PlayerState :=
  if s.is_registered then (Except.error GameError.AlreadyRegistered, s)
  else
    let s1 := { s with is_registered := true, encrypted_name := encrypted_name,
                       owner_key_hash := owner_key_hash }
    match create_page_internal s1 with
    | (Except.ok _, s2) => (Except.ok (), s2)
    | (Except.error e, s2) => (Except.error e, s2)

/-- `PlayerState::create_page`. -/
def create_page (s : PlayerState) : Except GameError Nat × PlayerState :=
  if s.is_registered = false then (Except.error GameError.NotRegistered, s)
  else create_page_internal s

/-- `PlayerState::deposit`. The final available-balance write of the
source subtracts from the `available` local read before the pending-yield
credit, so that credit is overwritten; the model reproduces this. -/
def deposit (s : PlayerState) (page_id plot_id amount : Nat)
    (encrypted_data owner_key : List Nat) : Except GameError Nat × PlayerState :=
  if s.is_registered = false then (Except.error GameError.NotRegistered, s) else
  let config := s.config
  if amount < config.min_deposit then
    (Except.error (GameError.InsufficientBalance amount config.min_deposit), s) else
  let available := s.available_balance
  if available < amount then
    (Except.error (GameError.InsufficientBalance available amount), s) else
  match s.pages.lookup page_id with
  | none => (Except.error (GameError.InvalidPageId page_id), s)
  | some page =>
    if page.is_unlocked = false then (Except.error GameError.PageNotUnlocked, s) else
    if page.plots.length ≤ plot_id then
      (Except.error (GameError.InvalidPlotId plot_id), s) else
    let plot := page.plots.getD plot_id LandPlot.default
    let current_block := s.current_block
    let s1 :=
      if plot.is_active ∧ 0 < plot.balance then
        let pending := plot.calculate_yield current_block config.yield_rate_bps
        if 0 < pending then
          { s with stats := { s.stats with
                     total_yield_earned := s.stats.total_yield_earned + pending },
                   available_balance := available + pending }
        else s
      else s
    let plot1 :=
      ({ plot with is_active := true, balance := plot.balance + amount,
                   deposit_block := current_block, last_claim_block := current_block,
                   encrypted_metadata := encrypted_data
       }).update_encrypted_balance (plot.balance + amount) owner_key
    let new_balance := plot1.balance
    let page1 := { page with plots := page.plots.set plot_id plot1 }
    let page2 := { page1 with
      encrypted_total := EncryptedData.new_mock (leBytes 16 page1.total_balance) owner_key }
    let s2 := { s1 with pages := mapInsert s1.pages page_id page2 }
    let s3 := { s2 with available_balance := available - amount }
    let s4 := { s3 with stats := { s3.stats with
                  total_deposited := s3.stats.total_deposited + amount } }
    (Except.ok new_balance, s4)

/-- `PlayerState::withdraw`. -/
def withdraw (s : PlayerState) (page_id plot_id amount : Nat)
    (owner_key : List Nat) : Except GameError Nat × PlayerState :=
  if s.is_registered = false then (Except.error GameError.NotRegistered, s) else
  let config := s.config
  match s.pages.lookup page_id with
  | none => (Except.error (GameError.InvalidPageId page_id), s)
  | some page =>
    if page.plots.length ≤ plot_id then
      (Except.error (GameError.InvalidPlotId plot_id), s) else
    let plot := page.plots.getD plot_id LandPlot.default
    if plot.is_active = false then (Except.error GameError.PlotNotActive, s) else
    if plot.balance < amount then
      (Except.error (GameError.InsufficientBalance plot.balance amount), s) else
    let current_block := s.current_block
    let pending := plot.calculate_yield current_block config.yield_rate_bps
    let plot1 :=
      ({ plot with balance := plot.balance - amount,
                   last_claim_block := current_block
       }).update_encrypted_balance (plot.balance - amount) owner_key
    let plot2 := if plot1.balance = 0 then { plot1 with is_active := false } else plot1
    let page1 := { page with plots := page.plots.set plot_id plot2 }
    let page2 := { page1 with
      encrypted_total := EncryptedData.new_mock (leBytes 16 page1.total_balance) owner_key }
    let s1 := { s with pages := mapInsert s.pages page_id page2 }
    let s2 := { s1 with available_balance := s1.available_balance + amount + pending }
    let s3 := { s2 with stats := { s2.stats with
                  total_withdrawn := s2.stats.total_withdrawn + amount,
                  total_yield_earned := s2.stats.total_yield_earned + pending } }
    (Except.ok amount, s3)

/-- `PlayerState::receive_targets` (snapshot `state_20260119132203.rs`):
legal only while `Searching` with the matching request id. -/
def receive_targets (s : PlayerState) (targets : List TargetInfo)
    (request_id : Nat) : Except GameError Unit × PlayerState :=
  match s.raid_state with
  | RaidState.Searching rid =>
      if rid = request_id then
        (Except.ok (),
         { s with raid_state :=
             RaidState.Choosing targets (s.current_block + s.config.target_lock_duration) })
      else (Except.error GameError.InvalidRaidState, s)
  | _ => (Except.error GameError.InvalidRaidState, s)

/-- `PlayerState::execute_steal` (reveal phase). -/
def execute_steal (s : PlayerState) (target_page target_plot : Nat)
    (reveal_nonce : List Nat) : Except GameError (List Nat × Nat) × PlayerState :=
  let current_block := s.current_block
  match s.raid_state with
  | RaidState.Locked target_chain commitment _locked_at expires_at_block =>
      if expires_at_block ≤ current_block then
        (Except.error GameError.TargetLockExpired, { s with raid_state := RaidState.Idle })
      else
        let expected := StealCommitment.new target_page target_plot reveal_nonce 0
        if expected.commitment_hash ≠ commitment then
          (Except.error GameError.InvalidCommitment, s)
        else
          let attack_seed := sha256 (commitment ++ leBytes 8 current_block ++ reveal_nonce)
          let request_id := s.request_counter + 1
          (Except.ok (attack_seed, target_chain),
           { s with raid_state := RaidState.Executing target_chain target_page
                      target_plot current_block,
                    request_counter := request_id,
                    pending_steals := mapInsert s.pending_steals request_id
                      { target_chain := target_chain, target_page := target_page,
                        target_plot := target_plot, started_at_block := current_block,
                        attack_seed := attack_seed } })
  | _ => (Except.error GameError.InvalidRaidState, s)

/-- `PlayerState::process_steal_attempt` (victim side). -/
def process_steal_attempt (s : PlayerState) (attacker_chain target_page target_plot : Nat)
    (attack_seed owner_key : List Nat) :
    Except GameError (Bool × Nat × List Nat) × PlayerState :=
  match s.pages.lookup target_page with
  | none => (Except.error (GameError.InvalidPageId target_page), s)
  | some page =>
    if page.plots.length ≤ target_plot then
      (Except.error (GameError.InvalidPlotId target_plot), s) else
    let plot := page.plots.getD target_plot LandPlot.default
    if plot.is_active = false ∨ plot.balance = 0 then
      (Except.ok (false, 0, []), s) else
    if plot.is_protected then (Except.error GameError.TargetProtected, s) else
    let rng_hash := sha256 (attack_seed ++ leBytes 16 plot.balance
      ++ leBytes 1 target_page ++ leBytes 1 target_plot)
    let config := s.config
    let roll := rng_hash.getD 0 0 % 100
    let success := decide (roll < config.steal_success_rate)
    let res :=
      if success then
        let steal_amount := plot.balance * config.steal_percentage / 100
        let hit := { plot with balance := plot.balance - steal_amount,
                               times_stolen := plot.times_stolen + 1 }
        let p := hit.update_encrypted_balance (plot.balance - steal_amount) owner_key
        let statsHit := { s.stats with
          total_lost_to_theft := s.stats.total_lost_to_theft + steal_amount,
          times_been_robbed := s.stats.times_been_robbed + 1 }
        (steal_amount, p, { s with stats := statsHit })
      else (0, plot, s)
    let amount_stolen := res.1
    let plot1 := res.2.1
    let s1 := res.2.2
    let page1 := { page with plots := page.plots.set target_plot plot1 }
    let page2 := { page1 with
      encrypted_total := EncryptedData.new_mock (leBytes 16 page1.total_balance) owner_key }
    let s2 := { s1 with pages := mapInsert s1.pages target_page page2 }
    let log_entry : AttackLog :=
      { timestamp := s.current_block, other_chain := attacker_chain,
        was_attacker := false, success := success, amount := amount_stolen,
        page_id := target_page, plot_id := target_plot }
    let s3 := { s2 with attack_log := trimLog (s2.attack_log ++ [log_entry]) }
    (Except.ok (success, amount_stolen, rng_hash), s3)

/-- `PlayerState::cancel_raid`: penalty cooldown of twice
`raid_cooldown_blocks` from any non-idle, non-cooldown state. -/
def cancel_raid (s : PlayerState) : Except GameError Unit × PlayerState :=
  match s.raid_state with
  | RaidState.Idle => (Except.error GameError.NotRaiding, s)
  | RaidState.Cooldown _ => (Except.error GameError.NotRaiding, s)
  | _ =>
      (Except.ok (),
       { s with raid_state :=
           RaidState.Cooldown (s.current_block + s.config.raid_cooldown_blocks * 2) })

/-- `PlayerState::update_block`. -/
def update_block (s : PlayerState) (block : Nat) : PlayerState :=
  { s with current_block := block }

end PlayerState

/-! ## Bounce handling (`contract_20260119132308.rs`) -/

/-- `StealAndYieldContract::handle_bounced_message`: a bounced
`StealAttempt` resets the raid state to `Idle`, a bounced
`RegisterPlayer` resets `is_registered`; all other variants are only
logged. -/
def handle_bounced_message (s : PlayerState) (m : Message) : PlayerState :=
  match m with
  | Message.StealAttempt _ _ _ _ _ => { s with raid_state := RaidState.Idle }
  | Message.RegisterPlayer _ _ _ => { s with is_registered := false }
  | _ => s

/-- `StealAndYieldContract::execute_message`: update the block height,
then — if the message is bouncing — run only the bounce handler and
return. The non-bounce dispatch (which also involves the registry state
and outbound messages) is abstracted as the parameter `normal`; the
bounce path never consults it. -/
def execute_message (bouncing : Bool) (height : Nat)
    (normal : Message → PlayerState → PlayerState) (m : Message)
    (s : PlayerState) : PlayerState :=
  let s0 := s.update_block height
  if bouncing then handle_bounced_message s0 m else normal m s0

/-! ## Concrete fixtures used by the witnesses -/

/-- A registered player with one fresh page, liquid balance 1000,
default config, block height 0. -/
def basePlayer : PlayerState :=
  { is_registered := true, encrypted_name := [], owner_key_hash := List.replicate 32 0,
    available_balance := 1000, pages := [(0, Page.new 0 0)], page_count := 1,
    raid_state := RaidState.Idle, stats := PlayerStats.default, attack_log := [],
    config := GameConfig.default, is_registry := false, registry_chain_id := some 99,
    current_block := 0, request_counter := 0, pending_steals := [],
    is_being_raided := false, current_raider := none }

/-- Plot 0 active with balance 1000000 and `last_claim_block = 0`. -/
def richPlot : LandPlot :=
  { LandPlot.default with id := 0, is_active := true, balance := 1000000 }

/-- Page 0 whose plot 0 is `richPlot`. -/
def richPage : Page :=
  { Page.new 0 0 with plots := richPlot :: (Page.new 0 0).plots.drop 1 }

/-- The C1 failing input: 100 blocks of pending yield on plot 0. -/
def depositBugState : PlayerState :=
  { basePlayer with pages := [(0, richPage)], current_block := 100 }

/-- Plot 0 active with balance 1000 (the spec scenario for steals). -/
def stealPlot : LandPlot :=
  { LandPlot.default with id := 0, is_active := true, balance := 1000 }

/-- Page 0 whose plot 0 is `stealPlot`. -/
def stealPage : Page :=
  { Page.new 0 0 with plots := stealPlot :: (Page.new 0 0).plots.drop 1 }

/-- A victim holding `stealPage`. -/
def victimState : PlayerState := { basePlayer with pages := [(0, stealPage)] }

/-- An attack seed whose RNG roll against `stealPlot` is 13 (a success
at the default 30 percent success rate). -/
def seedOne : List Nat := 1 :: List.replicate 31 0

/-- A reveal nonce for the C3 witness. -/
def nonceW : List Nat := List.replicate 32 7

/-- An attacker locked onto chain 42, page 2 / plot 1 committed under
`nonceW`, lock expiring at block 50, current block 10. -/
def lockedState : PlayerState :=
  { basePlayer with
    current_block := 10,
    raid_state := RaidState.Locked 42 (sha256 ([2, 1] ++ nonceW)) 5 50 }

/-- A player searching with request id 1. -/
def searchingState : PlayerState :=
  { basePlayer with raid_state := RaidState.Searching 1 }

/-- A sample target list. -/
def targetsW : List TargetInfo :=
  [{ chain_id := 42, activity_score := 3, active_pages := 1,
     last_active_block := 0, is_being_raided := false }]

/-- The yield formula as the specification states it:
`balance * blocksElapsed * yieldRateBps / 1_000_000` with saturating
multiplication. -/
def yieldFormula (balance elapsed rate : Nat) : Nat :=
  sat128 (sat128 (balance * elapsed) * rate) / 1000000

/-- The RNG hash of the victim-side steal resolution:
`SHA-256(attack_seed ‖ plot.balance ‖ target_page ‖ target_plot)`. -/
def stealRng (seed : List Nat) (balance tp tq : Nat) : List Nat :=
  sha256 (seed ++ leBytes 16 balance ++ leBytes 1 tp ++ leBytes 1 tq)

/-- The per-plot invariant of the spec: a zero-balance plot is never
active. -/
def plotInv (q : LandPlot) : Prop := q.balance = 0 → q.is_active = false

/-- The invariant over a whole player state: every plot of every stored
page satisfies `plotInv`. -/
def ledgerInv (s : PlayerState) : Prop :=
  ∀ kp ∈ s.pages, ∀ q ∈ kp.2.plots, plotInv q

/-! ## Helper lemmas -/

theorem sat128_mono {x y : Nat} (h : x ≤ y) : sat128 x ≤ sat128 y :=
  min_le_min h le_rfl

theorem lookup_mapInsert {α : Type} (m : List (Nat × α)) (k : Nat) (v : α) :
    (mapInsert m k v).lookup k = some v := by
  induction m with
  | nil => simp [mapInsert, List.lookup]
  | cons hd tl ih =>
      obtain ⟨k', v'⟩ := hd
      by_cases hk : k' = k
      · simp [mapInsert, hk, List.lookup]
      · have hkk : (k == k') = false := beq_eq_false_iff_ne.mpr fun h => hk h.symm
        simp [mapInsert, hk, List.lookup, hkk, ih]

theorem mem_mapInsert {α : Type} (m : List (Nat × α)) (k : Nat) (v : α)
    (x : Nat × α) (hx : x ∈ mapInsert m k v) : x = (k, v) ∨ x ∈ m := by
  induction m with
  | nil => simpa [mapInsert] using hx
  | cons hd tl ih =>
      obtain ⟨k', v'⟩ := hd
      by_cases hk : k' = k
      · subst hk
        rw [mapInsert, if_pos rfl] at hx
        rcases List.mem_cons.mp hx with h | h
        · exact Or.inl h
        · exact Or.inr (List.mem_cons_of_mem _ h)
      · rw [mapInsert, if_neg hk] at hx
        rcases List.mem_cons.mp hx with h | h
        · exact Or.inr (List.mem_cons.mpr (Or.inl h))
        · rcases ih h with h' | h'
          · exact Or.inl h'
          · exact Or.inr (List.mem_cons_of_mem _ h')

theorem mem_of_lookup {α : Type} (m : List (Nat × α)) (k : Nat) (v : α)
    (h : m.lookup k = some v) : (k, v) ∈ m := by
  induction m with
  | nil => simp [List.lookup] at h
  | cons hd tl ih =>
      obtain ⟨k', v'⟩ := hd
      by_cases hk : k = k'
      · subst hk
        simp only [List.lookup, beq_self_eq_true] at h
        have hv := Option.some.inj h
        subst hv
        exact List.mem_cons_self _ _
      · have hkk : (k == k') = false := beq_eq_false_iff_ne.mpr hk
        simp only [List.lookup, hkk] at h
        exact List.mem_cons_of_mem _ (ih h)

/-! ## Claim theorems -/

/-- C8: the commit-reveal primitive round-trips — for every target page,
target plot, nonce and commitment block, `StealCommitment::verify` applied
to the commitment `StealCommitment::new` built over the same
`(target_page, target_plot, nonce)` returns `true`, since both sides hash
exactly `target_page ‖ target_plot ‖ nonce`. -/
theorem commit_verify_roundtrip (target_page target_plot : Nat)
    (nonce : List Nat) (block : Nat) :
    (StealCommitment.new target_page target_plot nonce block).verify
      target_page target_plot nonce = true := by
  simp [StealCommitment.new, StealCommitment.verify]

/-- C4: `cancel_raid` from `Searching`, `Choosing`, `Locked` or `Executing`
succeeds and always moves to `Cooldown` with until-block
`current_block + 2 * raid_cooldown_blocks` (double cooldown penalty);
from `Idle` or `Cooldown` it fails `NotRaiding` without changing state. -/
theorem cancel_raid_penalty_cooldown (s : PlayerState) :
    (((∃ rid, s.raid_state = RaidState.Searching rid) ∨
      (∃ ts e, s.raid_state = RaidState.Choosing ts e) ∨
      (∃ tc c l e, s.raid_state = RaidState.Locked tc c l e) ∨
      (∃ tc tp tq b, s.raid_state = RaidState.Executing tc tp tq b)) →
        s.cancel_raid = (Except.ok (),
          { s with raid_state :=
              RaidState.Cooldown (s.current_block + s.config.raid_cooldown_blocks * 2) }))
  ∧ (s.raid_state = RaidState.Idle →
        s.cancel_raid = (Except.error GameError.NotRaiding, s))
  ∧ (∀ u, s.raid_state = RaidState.Cooldown u →
        s.cancel_raid = (Except.error GameError.NotRaiding, s)) := by
  refine ⟨?_, ?_, ?_⟩
  · rintro (⟨rid, h⟩ | ⟨ts, e, h⟩ | ⟨tc, c, l, e, h⟩ | ⟨tc, tp, tq, b, h⟩) <;>
      simp [PlayerState.cancel_raid, h]
  · intro h; simp [PlayerState.cancel_raid, h]
  · intro u h; simp [PlayerState.cancel_raid, h]

/-- C4 witness: cancelling from `Locked` at block 10 with the default
cooldown of 100 blocks gives `Cooldown` until block `10 + 200`. -/
theorem cancel_raid_penalty_cooldown_witness :
    lockedState.cancel_raid = (Except.ok (),
      { lockedState with raid_state := RaidState.Cooldown 210 }) := by
  have h := (cancel_raid_penalty_cooldown lockedState).1
    (Or.inr (Or.inr (Or.inl ⟨42, sha256 ([2, 1] ++ nonceW), 5, 50, by rfl⟩)))
  simpa [lockedState, basePlayer, GameConfig.default, RAID_COOLDOWN_BLOCKS] using h

/-- C9: a targets-response moves the raid state to
`Choosing (targets, current_block + target_lock_duration)` exactly when the
player is `Searching` with the same request id; in every other raid state,
or with a mismatched request id, it returns `InvalidRaidState` and leaves
the whole state unchanged (snapshot `state_20260119132203.rs`). -/
theorem receive_targets_request_id (s : PlayerState) (ts : List TargetInfo)
    (rid : Nat) :
    (s.raid_state = RaidState.Searching rid →
        s.receive_targets ts rid = (Except.ok (),
          { s with raid_state :=
              RaidState.Choosing ts (s.current_block + s.config.target_lock_duration) }))
  ∧ ((∀ r, s.raid_state = RaidState.Searching r → r ≠ rid) →
        s.receive_targets ts rid = (Except.error GameError.InvalidRaidState, s)) := by
  constructor
  · intro h; simp [PlayerState.receive_targets, h]
  · intro h
    unfold PlayerState.receive_targets
    cases hrs : s.raid_state
    case Searching r => simp [h r hrs]
    all_goals simp

/-- C9 witness: a matching response while `Searching 1` moves to
`Choosing` expiring at block `0 + 50`; a response with stale id 0 is
ignored. -/
theorem receive_targets_request_id_witness :
    searchingState.receive_targets targetsW 1 = (Except.ok (),
      { searchingState with raid_state := RaidState.Choosing targetsW 50 })
  ∧ searchingState.receive_targets targetsW 0 =
      (Except.error GameError.InvalidRaidState, searchingState) := by
  constructor
  · have h := (receive_targets_request_id searchingState targetsW 1).1 rfl
    simpa [searchingState, basePlayer, GameConfig.default, TARGET_LOCK_DURATION] using h
  · exact (receive_targets_request_id searchingState targetsW 0).2
      (by intro r hr; cases hr; decide)

/-- C5: when a message bounces, `execute_message` runs only the bounce
handler — the result does not depend on the normal dispatch at all — and
the fail-safe applies: a bounced `StealAttempt` resets the raid state to
`Idle`, a bounced `RegisterPlayer` resets `is_registered` to `false`. -/
theorem bounced_message_fail_safe (height : Nat)
    (normal : Message → PlayerState → PlayerState) (s : PlayerState) :
    (∀ m, execute_message true height normal m s =
        handle_bounced_message (s.update_block height) m)
  ∧ (∀ ac tp tq seed t,
        (execute_message true height normal (Message.StealAttempt ac tp tq seed t)
          s).raid_state = RaidState.Idle)
  ∧ (∀ pc nm t,
        (execute_message true height normal (Message.RegisterPlayer pc nm t)
          s).is_registered = false) := by
  refine ⟨fun m => rfl, fun ac tp tq seed t => rfl, fun pc nm t => rfl⟩

/-- C7: `calculate_yield` computes
`balance * blocksElapsed * yield_rate_bps / 1_000_000` with saturating
multiplication, where `blocksElapsed` is the truncated difference
`current_block - last_claim_block`; it is zero for an inactive plot, a
zero balance, or zero elapsed blocks, and is monotone non-decreasing in
the current block (hence in `blocksElapsed`) for fixed balance and rate. -/
theorem calculate_yield_spec (p : LandPlot) (cb cb' rate : Nat) :
    (p.is_active = true → 0 < p.balance →
        p.calculate_yield cb rate = yieldFormula p.balance (cb - p.last_claim_block) rate)
  ∧ (p.is_active = false → p.calculate_yield cb rate = 0)
  ∧ (p.balance = 0 → p.calculate_yield cb rate = 0)
  ∧ (cb - p.last_claim_block = 0 → p.calculate_yield cb rate = 0)
  ∧ (cb ≤ cb' → p.calculate_yield cb rate ≤ p.calculate_yield cb' rate) := by
  refine ⟨?_, ?_, ?_, ?_, ?_⟩
  · intro ha hb
    simp [LandPlot.calculate_yield, yieldFormula, ha, Nat.pos_iff_ne_zero.mp hb]
  · intro ha; simp [LandPlot.calculate_yield, ha]
  · intro hb; simp [LandPlot.calculate_yield, hb]
  · intro he
    unfold LandPlot.calculate_yield
    by_cases hc : p.is_active = false ∨ p.balance = 0
    · simp [hc]
    · simp [if_neg hc, he, sat128, U128MAX]
  · intro hcb
    unfold LandPlot.calculate_yield
    by_cases hc : p.is_active = false ∨ p.balance = 0
    · simp [hc]
    · simp only [if_neg hc]
      refine Nat.div_le_div_right (sat128_mono (Nat.mul_le_mul ?_ le_rfl))
      exact sat128_mono (Nat.mul_le_mul le_rfl (Nat.sub_le_sub_right hcb _))

/-- C7 witness: `richPlot` (active, balance 1000000, last claim at 0)
yields exactly the formula value at block 100 and rate 10 basis points,
and no less at block 200. -/
theorem calculate_yield_spec_witness :
    richPlot.calculate_yield 100 10 = yieldFormula 1000000 100 10
  ∧ richPlot.calculate_yield 100 10 ≤ richPlot.calculate_yield 200 10 := by
  constructor
  · have h := (calculate_yield_spec richPlot 100 200 10).1 (by rfl) (by decide)
    simpa [richPlot, LandPlot.default] using h
  · exact (calculate_yield_spec richPlot 100 200 10).2.2.2.2 (by decide)

/-- C3: `execute_steal` succeeds only from `Locked` and before the lock's
expiry block. From any other raid state it fails `InvalidRaidState` with
no state change; from an expired lock it fails `TargetLockExpired`
(resetting to `Idle`); from a live lock, if the hash recomputed over
`(target_page, target_plot, reveal_nonce)` differs from the stored
commitment it fails `InvalidCommitment` with no state change at all, and
if it matches the raid state becomes `Executing`, a `PendingSteal` record
is stored under the next request id, and the attack seed returned (to be
sent to the victim) is the hash of
`commitment ‖ current_block ‖ reveal_nonce`. -/
theorem execute_steal_commit_reveal (s : PlayerState) (tp tq : Nat)
    (nonce : List Nat) (tc : Nat) (c : List Nat) (lb eb : Nat) :
    ((∀ tc' c' lb' eb', s.raid_state ≠ RaidState.Locked tc' c' lb' eb') →
        s.execute_steal tp tq nonce = (Except.error GameError.InvalidRaidState, s))
  ∧ (s.raid_state = RaidState.Locked tc c lb eb →
      (eb ≤ s.current_block →
          s.execute_steal tp tq nonce =
            (Except.error GameError.TargetLockExpired,
             { s with raid_state := RaidState.Idle }))
      ∧ (s.current_block < eb →
          (sha256 ([tp, tq] ++ nonce) ≠ c →
              s.execute_steal tp tq nonce = (Except.error GameError.InvalidCommitment, s))
          ∧ (sha256 ([tp, tq] ++ nonce) = c →
              s.execute_steal tp tq nonce =
                (Except.ok (sha256 (c ++ leBytes 8 s.current_block ++ nonce), tc),
                 { s with
                   raid_state := RaidState.Executing tc tp tq s.current_block,
                   request_counter := s.request_counter + 1,
                   pending_steals := mapInsert s.pending_steals (s.request_counter + 1)
                     { target_chain := tc, target_page := tp, target_plot := tq,
                       started_at_block := s.current_block,
                       attack_seed := sha256 (c ++ leBytes 8 s.current_block ++ nonce) } })))) := by
  constructor
  · intro h
    unfold PlayerState.execute_steal
    cases hrs : s.raid_state
    case Locked a b d e => exact absurd hrs (h a b d e)
    all_goals simp
  · intro hrs
    constructor
    · intro hex
      simp [PlayerState.execute_steal, hrs, hex]
    · intro hlt
      have hnex : ¬ eb ≤ s.current_block := Nat.not_le.mpr hlt
      constructor
      · intro hne
        have hne' : sha256 (tp :: tq :: nonce) ≠ c := by simpa using hne
        simp [PlayerState.execute_steal, hrs, hnex, StealCommitment.new, hne']
      · intro hcc
        have hcc' : sha256 (tp :: tq :: nonce) = c := by simpa using hcc
        simp [PlayerState.execute_steal, hrs, hnex, StealCommitment.new, hcc']

/-- C3 witness: from `lockedState` (locked on chain 42 with the
commitment over page 2, plot 1, nonce `nonceW`, current block 10, expiry
50), revealing `(2, 1, nonceW)` succeeds and moves to `Executing`, while
revealing the mismatching `(0, 0, nonceW)` fails `InvalidCommitment` and
leaves the state unchanged. -/
theorem execute_steal_commit_reveal_witness :
    lockedState.execute_steal 2 1 nonceW =
      (Except.ok (sha256 (sha256 ([2, 1] ++ nonceW) ++ leBytes 8 10 ++ nonceW), 42),
       { lockedState with
         raid_state := RaidState.Executing 42 2 1 10,
         request_counter := 1,
         pending_steals := mapInsert [] 1
           { target_chain := 42, target_page := 2, target_plot := 1,
             started_at_block := 10,
             attack_seed := sha256 (sha256 ([2, 1] ++ nonceW) ++ leBytes 8 10 ++ nonceW) } })
  ∧ lockedState.execute_steal 0 0 nonceW =
      (Except.error GameError.InvalidCommitment, lockedState) := by
  constructor
  · have h := (((execute_steal_commit_reveal lockedState 2 1 nonceW 42
        (sha256 ([2, 1] ++ nonceW)) 5 50).2 (by rfl)).2 (by decide)).2 rfl
    simpa [lockedState, basePlayer] using h
  · exact (((execute_steal_commit_reveal lockedState 0 0 nonceW 42
        (sha256 ([2, 1] ++ nonceW)) 5 50).2 (by rfl)).2 (by decide)).1 (by decide)

theorem getD_set_self {α : Type} (l : List α) (i : Nat) (a d : α)
    (h : i < l.length) : (l.set i a).getD i d = a := by
  simp [List.getD_eq_getElem?_getD, List.getElem?_set_eq_of_lt _ h]

/-- C2: victim-side steal resolution. For a target plot that is inactive
or has zero balance, `process_steal_attempt` returns
`(success = false, amount = 0)` and leaves the whole state unchanged.
Otherwise (for an unprotected plot), with
`rng = SHA-256(attack_seed ‖ plot.balance ‖ target_page ‖ target_plot)`,
success holds exactly when `rng[0] % 100 < config.steal_success_rate`:
on a roll below the rate the outcome is success, the stolen amount is
`plot.balance * steal_percentage / 100` (floor division), the plot's
balance is reduced by it, `times_stolen` is incremented, the victim's
lost-to-steals stats grow accordingly, and the raw hash bytes are
returned as the rng proof; on a roll at or above the rate the outcome is
failure with amount 0 and unchanged stats. -/
theorem process_steal_attempt_spec (s : PlayerState)
    (ac tp tq : Nat) (seed key : List Nat) (page : Page)
    (hpg : s.pages.lookup tp = some page) (hlen : tq < page.plots.length) :
    ((page.plots.getD tq LandPlot.default).is_active = false ∨
       (page.plots.getD tq LandPlot.default).balance = 0 →
        s.process_steal_attempt ac tp tq seed key = (Except.ok (false, 0, []), s))
  ∧ ((page.plots.getD tq LandPlot.default).is_active = true →
     0 < (page.plots.getD tq LandPlot.default).balance →
     (page.plots.getD tq LandPlot.default).is_protected = false →
      ((stealRng seed (page.plots.getD tq LandPlot.default).balance tp tq).getD 0 0 % 100 <
          s.config.steal_success_rate →
        (s.process_steal_attempt ac tp tq seed key).1 = Except.ok (true,
            (page.plots.getD tq LandPlot.default).balance * s.config.steal_percentage / 100,
            stealRng seed (page.plots.getD tq LandPlot.default).balance tp tq)
      ∧ (s.process_steal_attempt ac tp tq seed key).2.stats.total_lost_to_theft =
          s.stats.total_lost_to_theft +
            (page.plots.getD tq LandPlot.default).balance * s.config.steal_percentage / 100
      ∧ (s.process_steal_attempt ac tp tq seed key).2.stats.times_been_robbed =
          s.stats.times_been_robbed + 1
      ∧ ∃ pg, (s.process_steal_attempt ac tp tq seed key).2.pages.lookup tp = some pg
          ∧ (pg.plots.getD tq LandPlot.default).balance =
              (page.plots.getD tq LandPlot.default).balance -
                (page.plots.getD tq LandPlot.default).balance * s.config.steal_percentage / 100
          ∧ (pg.plots.getD tq LandPlot.default).times_stolen =
              (page.plots.getD tq LandPlot.default).times_stolen + 1)
    ∧ (¬ (stealRng seed (page.plots.getD tq LandPlot.default).balance tp tq).getD 0 0 % 100 <
          s.config.steal_success_rate →
        (s.process_steal_attempt ac tp tq seed key).1 = Except.ok (false, 0,
            stealRng seed (page.plots.getD tq LandPlot.default).balance tp tq)
      ∧ (s.process_steal_attempt ac tp tq seed key).2.stats = s.stats)) := by
  have hnotle : ¬ page.plots.length ≤ tq := Nat.not_le.mpr hlen
  constructor
  · intro hdead
    simp only [PlayerState.process_steal_attempt, hpg]
    rw [if_neg hnotle, if_pos hdead]
  · intro hact hbal hprot
    have hlive : ¬ ((page.plots.getD tq LandPlot.default).is_active = false ∨
        (page.plots.getD tq LandPlot.default).balance = 0) := by
      push_neg
      refine ⟨?_, Nat.pos_iff_ne_zero.mp hbal⟩
      simp only [hact]
      decide
    have hprot' : ¬ (page.plots.getD tq LandPlot.default).is_protected = true := by
      simp only [hprot]
      decide
    constructor
    · intro hs
      have hout : s.process_steal_attempt ac tp tq seed key =
          (Except.ok (true,
             (page.plots.getD tq LandPlot.default).balance * s.config.steal_percentage / 100,
             stealRng seed (page.plots.getD tq LandPlot.default).balance tp tq),
           { s with
             stats := { s.stats with
               total_lost_to_theft := s.stats.total_lost_to_theft +
                 (page.plots.getD tq LandPlot.default).balance *
                   s.config.steal_percentage / 100,
               times_been_robbed := s.stats.times_been_robbed + 1 },
             pages := mapInsert s.pages tp
               { page with
                 plots := page.plots.set tq
                   (({ page.plots.getD tq LandPlot.default with
                       balance := (page.plots.getD tq LandPlot.default).balance -
                         (page.plots.getD tq LandPlot.default).balance *
                           s.config.steal_percentage / 100,
                       times_stolen :=
                         (page.plots.getD tq LandPlot.default).times_stolen + 1
                     }).update_encrypted_balance
                       ((page.plots.getD tq LandPlot.default).balance -
                         (page.plots.getD tq LandPlot.default).balance *
                           s.config.steal_percentage / 100) key),
                 encrypted_total := EncryptedData.new_mock
                   (leBytes 16 { page with
                     plots := page.plots.set tq
                       (({ page.plots.getD tq LandPlot.default with
                           balance := (page.plots.getD tq LandPlot.default).balance -
                             (page.plots.getD tq LandPlot.default).balance *
                               s.config.steal_percentage / 100,
                           times_stolen :=
                             (page.plots.getD tq LandPlot.default).times_stolen + 1
                         }).update_encrypted_balance
                           ((page.plots.getD tq LandPlot.default).balance -
                             (page.plots.getD tq LandPlot.default).balance *
                               s.config.steal_percentage / 100) key)
                   }.total_balance) key },
             attack_log := trimLog (s.attack_log ++
               [{ timestamp := s.current_block, other_chain := ac,
                  was_attacker := false, success := true,
                  amount := (page.plots.getD tq LandPlot.default).balance *
                    s.config.steal_percentage / 100,
                  page_id := tp, plot_id := tq }]) }) := by
        simp only [PlayerState.process_steal_attempt, hpg]
        rw [if_neg hnotle, if_neg hlive, if_neg hprot',
          show (decide ((sha256 (seed ++
              leBytes 16 (page.plots.getD tq LandPlot.default).balance ++
              leBytes 1 tp ++ leBytes 1 tq)).getD 0 0 % 100 <
              s.config.steal_success_rate)) = true from
            decide_eq_true (by simpa [stealRng] using hs)]
        rfl
      refine ⟨by rw [hout], by rw [hout], by rw [hout], ?_⟩
      refine ⟨_, by rw [hout]; exact lookup_mapInsert _ _ _, ?_, ?_⟩ <;>
        rw [getD_set_self _ _ _ _ hlen] <;> rfl
    · intro hs
      have hout : s.process_steal_attempt ac tp tq seed key =
          (Except.ok (false, 0,
             stealRng seed (page.plots.getD tq LandPlot.default).balance tp tq),
           { s with
             pages := mapInsert s.pages tp
               { page with
                 plots := page.plots.set tq (page.plots.getD tq LandPlot.default),
                 encrypted_total := EncryptedData.new_mock
                   (leBytes 16 { page with
                     plots := page.plots.set tq (page.plots.getD tq LandPlot.default)
                   }.total_balance) key },
             attack_log := trimLog (s.attack_log ++
               [{ timestamp := s.current_block, other_chain := ac,
                  was_attacker := false, success := false, amount := 0,
                  page_id := tp, plot_id := tq }]) }) := by
        simp only [PlayerState.process_steal_attempt, hpg]
        rw [if_neg hnotle, if_neg hlive, if_neg hprot',
          show (decide ((sha256 (seed ++
              leBytes 16 (page.plots.getD tq LandPlot.default).balance ++
              leBytes 1 tp ++ leBytes 1 tq)).getD 0 0 % 100 <
              s.config.steal_success_rate)) = false from
            decide_eq_false (by simpa [stealRng] using hs)]
        rfl
      exact ⟨by rw [hout], by rw [hout]⟩

/-- C2 witness: against `victimState` (plot 0 of page 0 active with
balance 1000, default config: success rate 30, steal percentage 15),
the seed `seedOne` rolls 13 — a success — so the outcome is
`(true, 150, rng)` with the raw hash bytes as proof, and afterwards the
victim has `total_lost_to_theft = 150`. -/
theorem process_steal_attempt_spec_witness :
    (victimState.process_steal_attempt 7 0 0 seedOne [1]).1 =
      Except.ok (true, 150, stealRng seedOne 1000 0 0)
  ∧ (victimState.process_steal_attempt 7 0 0 seedOne [1]).2.stats.total_lost_to_theft
      = 150 := by
  have h := ((process_steal_attempt_spec victimState 7 0 0 seedOne [1] stealPage
    (by rfl) (by decide)).2 (by decide) (by decide) (by decide)).1 (by decide)
  constructor
  · rw [h.1]
    simp only [Except.ok.injEq]
    decide
  · rw [h.2.1]
    decide

/-- C10: a successful `register` on an unregistered context automatically
creates the player's first page: afterwards `page_count` is 1 and page 0
is `Page::new(0, current_block)` — `MAX_PLOTS_PER_PAGE` (= 5) inactive
plots of zero balance — even though no `CreatePage` operation ran; a
second `register` fails `AlreadyRegistered` without changing state. -/
theorem register_creates_first_page (s : PlayerState) (nm keyh : List Nat)
    (hreg : s.is_registered = false) (hpc : s.page_count = 0) :
    (s.register nm keyh).1 = Except.ok ()
  ∧ (s.register nm keyh).2.page_count = 1
  ∧ (s.register nm keyh).2.pages.lookup 0 = some (Page.new 0 s.current_block)
  ∧ (Page.new 0 s.current_block).plots.length = MAX_PLOTS_PER_PAGE
  ∧ MAX_PLOTS_PER_PAGE = 5
  ∧ (∀ q ∈ (Page.new 0 s.current_block).plots, q.is_active = false ∧ q.balance = 0)
  ∧ (s.register nm keyh).2.register nm keyh =
      (Except.error GameError.AlreadyRegistered, (s.register nm keyh).2) := by
  have hstep : s.register nm keyh =
      (Except.ok (),
       { s with is_registered := true, encrypted_name := nm, owner_key_hash := keyh,
                pages := mapInsert s.pages 0 (Page.new 0 s.current_block),
                page_count := 1 }) := by
    simp [PlayerState.register, PlayerState.create_page_internal, hreg, hpc,
      MAX_PAGES_PER_PLAYER]
  refine ⟨by rw [hstep], by rw [hstep], ?_, by simp [Page.new, MAX_PLOTS_PER_PAGE],
    by rfl, ?_, ?_⟩
  · rw [hstep]
    exact lookup_mapInsert _ _ _
  · intro q hq
    simp only [Page.new, List.mem_map] at hq
    obtain ⟨i, _, hi⟩ := hq
    constructor <;> simp [← hi, LandPlot.default]
  · rw [hstep]
    simp [PlayerState.register]

/-- C10 witness: registering a fresh (initialized, unregistered) player
context creates page 0 with 5 empty plots and bumps `page_count` to 1;
registering again fails `AlreadyRegistered`. -/
theorem register_creates_first_page_witness :
    ((basePlayer.initPlayer false (some 99) 1000).register [5] (List.replicate 32 1)).1 =
      Except.ok ()
  ∧ ((basePlayer.initPlayer false (some 99) 1000).register [5]
      (List.replicate 32 1)).2.page_count = 1
  ∧ (((basePlayer.initPlayer false (some 99) 1000).register [5]
      (List.replicate 32 1)).2.register [5] (List.replicate 32 1)).1 =
      Except.error GameError.AlreadyRegistered := by
  have h := register_creates_first_page (basePlayer.initPlayer false (some 99) 1000)
    [5] (List.replicate 32 1) (by rfl) (by rfl)
  exact ⟨h.1, h.2.1, by rw [h.2.2.2.2.2.2]⟩

/-- C1 (code bug): on a deposit into a plot with positive pending yield,
the source folds the yield into `stats.total_yield_earned` and credits
`available + pending` — but the final balance write uses the stale
`available` local (`available - amount`), overwriting the credit. At the
failing input (plot 0 active with balance 1000000, 100 elapsed blocks at
10 bps → pending yield 1000, liquid balance 1000, deposit of 100) the
code leaves the liquid balance at `1000 - 100 = 900` instead of the
claimed `1000 + 1000 - 100 = 1900`, while still recording 1000 yield
earned — so the recorded yield delta is not reflected in any balance. -/
theorem deposit_discards_folded_yield :
    richPlot.calculate_yield 100 10 = 1000
  ∧ depositBugState.available_balance = 1000
  ∧ (depositBugState.deposit 0 0 100 [] [1]).1 = Except.ok 1000100
  ∧ (depositBugState.deposit 0 0 100 [] [1]).2.available_balance = 900
  ∧ (depositBugState.deposit 0 0 100 [] [1]).2.stats.total_yield_earned = 1000 := by
  exact ⟨by decide, by decide, by rfl, by decide, by decide⟩

theorem getD_mem {α : Type} (l : List α) (i : Nat) (d : α) (h : i < l.length) :
    l.getD i d ∈ l := by
  rw [List.getD_eq_getElem?_getD, List.getElem?_eq_getElem h]
  exact List.getElem_mem h

theorem depositInv (s : PlayerState) (pid qid amount : Nat) (ed key : List Nat)
    (hInv : ledgerInv s) (hmin : 0 < s.config.min_deposit) :
    ledgerInv (s.deposit pid qid amount ed key).2 := by
  simp only [PlayerState.deposit]
  repeat' split
  all_goals try exact hInv
  all_goals (
    intro kp hkp q hq hq0
    rcases mem_mapInsert _ _ _ _ hkp with rfl | hkp2
    · rcases List.mem_or_eq_of_mem_set hq with hq2 | rfl
      · exact hInv _ (mem_of_lookup _ _ _ (by assumption)) q hq2 hq0
      · simp only [LandPlot.update_encrypted_balance] at hq0
        have hge : s.config.min_deposit ≤ amount := Nat.not_lt.mp (by assumption)
        omega
    · exact hInv _ hkp2 q hq hq0)

theorem withdrawInv (s : PlayerState) (pid qid amount : Nat) (key : List Nat)
    (hInv : ledgerInv s) : ledgerInv (s.withdraw pid qid amount key).2 := by
  simp only [PlayerState.withdraw]
  repeat' split
  all_goals try exact hInv
  all_goals (
    intro kp hkp q hq hq0
    rcases mem_mapInsert _ _ _ _ hkp with rfl | hkp2
    · rcases List.mem_or_eq_of_mem_set hq with hq2 | rfl
      · exact hInv _ (mem_of_lookup _ _ _ (by assumption)) q hq2 hq0
      · first
        | rfl
        | exact absurd hq0 (by assumption)
    · exact hInv _ hkp2 q hq hq0)

theorem steal_deduction_pos {B pct : Nat} (hb : 0 < B) (hpct : pct < 100) :
    B - B * pct / 100 ≠ 0 := by
  have hlt : B * pct / 100 < B := by
    rw [Nat.div_lt_iff_lt_mul (by norm_num : (0:Nat) < 100)]
    exact mul_lt_mul_of_pos_left hpct hb
  exact Nat.sub_ne_zero_of_lt hlt

theorem stealInv (s : PlayerState) (ac tp tq : Nat) (seed key : List Nat)
    (hInv : ledgerInv s) (hpct : s.config.steal_percentage < 100) :
    ledgerInv (s.process_steal_attempt ac tp tq seed key).2 := by
  simp only [PlayerState.process_steal_attempt]
  repeat' split
  all_goals try exact hInv
  all_goals (
    intro kp hkp q hq hq0
    rcases mem_mapInsert _ _ _ _ hkp with rfl | hkp2
    · rcases List.mem_or_eq_of_mem_set hq with hq2 | rfl
      · exact hInv _ (mem_of_lookup _ _ _ (by assumption)) q hq2 hq0
      · first
        | exact hInv _ (mem_of_lookup _ _ _ (by assumption)) _
            (getD_mem _ _ _ (Nat.not_le.mp (by assumption))) hq0
        | (simp only [LandPlot.update_encrypted_balance] at hq0
           exact absurd hq0 (steal_deduction_pos
             (Nat.pos_of_ne_zero fun h0 => absurd (Or.inr h0) (by assumption)) hpct))
    · exact hInv _ hkp2 q hq hq0)

/-- C6: the per-plot invariant `balance == 0 -> is_active == false` is
preserved by `deposit`, `withdraw` and the victim-side
`process_steal_attempt` (the three operations that change plot
balances), under the standing configuration facts `min_deposit > 0` and
`steal_percentage < 100` — both hold for every config the program ever
constructs (`GameConfig::default` has 100 and 15, and `UpdateConfig`
only modifies `yield_rate_bps` and `steal_success_rate`): deposit
activates a plot only while adding `amount >= min_deposit > 0`, withdraw
deactivates exactly at zero, and a successful steal deducts
`floor(balance * steal_percentage / 100) < balance`, never zeroing a
still-active plot. -/
theorem plot_balance_active_invariant (s : PlayerState)
    (pid qid amount : Nat) (ed key : List Nat) (ac tp tq : Nat) (seed : List Nat)
    (hInv : ledgerInv s) (hmin : 0 < s.config.min_deposit)
    (hpct : s.config.steal_percentage < 100) :
    ledgerInv (s.deposit pid qid amount ed key).2
  ∧ ledgerInv (s.withdraw pid qid amount key).2
  ∧ ledgerInv (s.process_steal_attempt ac tp tq seed key).2 :=
  ⟨depositInv s pid qid amount ed key hInv hmin,
   withdrawInv s pid qid amount key hInv,
   stealInv s ac tp tq seed key hInv hpct⟩

/-- C6 witness: from `victimState` (which satisfies the invariant), a
deposit of 100 into plot (0,0), a withdrawal of 100 from it and the
steal attempt seeded by `seedOne` all preserve the invariant. -/
theorem plot_balance_active_invariant_witness :
    ledgerInv (victimState.deposit 0 0 100 [] [1]).2
  ∧ ledgerInv (victimState.withdraw 0 0 100 [1]).2
  ∧ ledgerInv (victimState.process_steal_attempt 7 0 0 seedOne [1]).2 :=
  plot_balance_active_invariant victimState 0 0 100 [] [1] 7 0 0 seedOne
    (by unfold ledgerInv plotInv; decide) (by decide) (by decide)

end StakeSteal
